import Mathlib

/-!
Shallow embedding of `napari_aicsimageio/core.py` (the single source file of
the napari-aicsimageio plugin) together with an abstract model of the two
external collaborators it delegates to: the aicsimageio reader library
(format detection, reader construction, dims/channel-name/dask-data access)
and the dask distributed client (map / gather over per-path load tasks).

The embedding keeps the source's names where Lean allows it:
`_load_image`, `reader_function`, `get_reader`, `LoadResult`.
Python exceptions are modelled with `Except PyError`; the nondeterministic
completion order of the parallel gather is modelled by an explicit
scheduling function `sched` that is constrained to be a permutation in the
theorems (the identity corresponds to dask's order-preserving gather).
-/

namespace NapariAics

/-- File paths; Python strings. -/
abbrev Path := String

/-- Python exceptions relevant to `core.py`:
`IndexError` from `paths[0]` on an empty list,
`aicsimageio.exceptions.UnsupportedFileFormatError` from format detection,
and any other exception a collaborator may raise (e.g. `FileNotFoundError`),
carried with its name. -/
inductive PyError where
  | indexError
  | unsupportedFileFormat
  | other (msg : String)
deriving DecidableEq, Repr

/-- Numpy dtypes that occur in the model. `float16` is `np.float16`. -/
inductive Dtype where
  | float16
  | float32
  | uint8
  | uint16
deriving DecidableEq, Repr

/-- The dimension constants of `aicsimageio.constants.Dimensions`
("S", "T", "C", "Z", "Y", "X"). -/
inductive Dim where
  | Scene
  | Time
  | Channel
  | SpatialZ
  | SpatialY
  | SpatialX
deriving DecidableEq, Repr

/-- An n-dimensional array descriptor: its shape, its dtype, and an opaque
identifier of the underlying file content (values themselves are irrelevant
to every claim; which file's content sits where is what matters). -/
structure NDArray where
  shape : List Nat
  dtype : Dtype
  payload : Nat
deriving DecidableEq, Repr

/-- `arr.astype(np.float16)` and friends: a dtype cast. -/
def NDArray.astype (a : NDArray) (dt : Dtype) : NDArray :=
  { a with dtype := dt }

/-- `np.squeeze`: remove every axis of size 1. -/
def np_squeeze (a : NDArray) : NDArray :=
  { a with shape := a.shape.filter (fun n => n != 1) }

/-- What the aicsimageio reader exposes for one file: its declared dimension
ordering (`reader.dims`), its channel names (`reader.get_channel_names()`),
and its lazy data array (`reader.dask_data`). -/
structure FileImage where
  dims : List Dim
  channel_names : List String
  data : NDArray
deriving DecidableEq, Repr

/-- Abstract behaviour of the external aicsimageio library:
`determine_reader` models `AICSImage.determine_reader` on one path (ok, or
raising some exception), and `files` gives the per-file reader content used
by a constructed reader. -/
structure PyEnv where
  determine_reader : Path → Except PyError Unit
  files : Path → FileImage

/-- A constructed aicsimageio reader: `ReaderClass(path)` records
`chunk_by_dims = none` (library default), while
`ReaderClass(path, chunk_by_dims=[...])` records the explicit chunk spec. -/
structure Reader where
  path : Path
  chunk_by_dims : Option (List Dim)
deriving DecidableEq, Repr

/-- `reader.dims` — the reader's declared dimension ordering. -/
def Reader.dims (env : PyEnv) (r : Reader) : List Dim :=
  (env.files r.path).dims

/-- `reader.get_channel_names()`. -/
def Reader.get_channel_names (env : PyEnv) (r : Reader) : List String :=
  (env.files r.path).channel_names

/-- `reader.dask_data` — the reader's lazy data array. Its shape, dtype and
content depend only on the file, not on the chunk configuration. -/
def Reader.dask_data (env : PyEnv) (r : Reader) : NDArray :=
  (env.files r.path).data

/-- The per-path result `NamedTuple` of `core.py`. -/
structure LoadResult where
  data : NDArray
  index : Nat
  channel_axis : Option Nat
  channel_names : Option (List String)
deriving DecidableEq, Repr

/-- Lines 46-51 of `core.py`: reader construction inside `_load_image`.
The `compute` argument is the value actually received from the caller's
`client.map` zip, a Python int whose truthiness (`if compute:`) selects the
branch: truthy gives `ReaderClass(path)` (default chunking), falsy gives
`ReaderClass(path, chunk_by_dims=[Dimensions.SpatialY, Dimensions.SpatialX])`. -/
def _load_image_reader (path : Path) (compute : Nat) : Reader :=
  if compute != 0 then
    { path := path, chunk_by_dims := none }
  else
    { path := path, chunk_by_dims := some [Dim.SpatialY, Dim.SpatialX] }

/-- `_load_image` (lines 36-71): build the reader, derive `channel_axis`
from `reader.dims.index(Dimensions.Channel)` when the Channel dimension is
present, derive `channel_names` only when `channel_axis` is not None, and
return the squeezed float16 data together with the carried index. -/
def _load_image (env : PyEnv) (path : Path) (index : Nat) (compute : Nat) :
    LoadResult :=
  let reader := _load_image_reader path compute
  let channel_axis : Option Nat :=
    if Dim.Channel ∈ Reader.dims env reader then
      some ((Reader.dims env reader).indexOf Dim.Channel)
    else
      none
  let channel_names : Option (List String) :=
    match channel_axis with
    | some _ => some (Reader.get_channel_names env reader)
    | none => none
  { data := np_squeeze ((Reader.dask_data env reader).astype Dtype.float16)
    index := index
    channel_axis := channel_axis
    channel_names := channel_names }

/-- `PathLike = Union[str, List[str]]`. -/
inductive PathArg where
  | single (p : Path)
  | multiple (ps : List Path)

/-- `paths = [path] if isinstance(path, str) else path` (lines 82 and 137). -/
def standardize_paths : PathArg → List Path
  | .single p => [p]
  | .multiple ps => ps

/-- Python list subscript `l[i]`: the element, or an `IndexError`. -/
def pyIndex (l : List α) (i : Nat) : Except PyError α :=
  match l[i]? with
  | some a => Except.ok a
  | none => Except.error PyError.indexError

/-- Line 94 of `core.py`: the index arguments handed to `client.map`,
`[i for i in range(len(paths))]`. -/
def task_index_args (paths : List Path) : List Nat :=
  List.range paths.length

/-- Line 95 of `core.py`: the compute arguments handed to `client.map`,
`[compute for compute in range(len(paths))]`. The comprehension variable
shadows the function parameter, so this list is `range(len(paths))` —
the values `0, 1, ..., N-1` — whatever the caller's `compute` flag is. -/
def task_compute_args (paths : List Path) : List Nat :=
  List.range paths.length

/-- Lines 90-96: `client.map(_load_image, paths, [ReaderClass ...],
[i ...], [compute ...])` — one `_load_image` task per path, zipping the
argument lists positionally. -/
def map_load_tasks (env : PyEnv) (paths : List Path) : List LoadResult :=
  List.zipWith (fun p ic => _load_image env p ic.1 ic.2)
    paths ((task_index_args paths).zip (task_compute_args paths))

/-- The dask array returned by `da.stack`: the ordered per-path slices
along the new leading axis, plus whether the array is still lazy. -/
structure StackedArray where
  slices : List NDArray
  lazy : Bool
deriving DecidableEq, Repr

/-- `da.stack(list_of_arrays)`: a lazy stacked array. -/
def da_stack (xs : List NDArray) : StackedArray :=
  { slices := xs, lazy := true }

/-- `data.compute()`: force full computation; the result is no longer lazy. -/
def StackedArray.force_compute (a : StackedArray) : StackedArray :=
  { a with lazy := false }

/-- The shape of the stacked array: the leading stacking axis has length
equal to the number of slices, followed by the common slice shape. -/
def StackedArray.shape (a : StackedArray) : List Nat :=
  a.slices.length ::
    (match a.slices.head? with
     | some s => s.shape
     | none => [])

/-- The dtype of the stacked array (all slices share it in every use here). -/
def StackedArray.dtypeHead (a : StackedArray) : Option Dtype :=
  a.slices.head?.map (fun s => s.dtype)

/-- The metadata dict built at lines 120-125; its fields are exactly the
four keys `name`, `channel_axis`, `is_pyramid`, `visible`. -/
structure Meta where
  name : Option (List String)
  channel_axis : Option Nat
  is_pyramid : Bool
  visible : Bool
deriving DecidableEq, Repr

/-- One `LayerData` tuple `(data, meta)` as returned to napari. -/
abbrev LayerData := StackedArray × Meta

/-- Line 102: `sorted(results, key=lambda result: result.index)`. -/
def sort_by_index (rs : List LoadResult) : List LoadResult :=
  List.insertionSort (fun a b => a.index ≤ b.index) rs

/-- `reader_function` (lines 74-127). `sched` models the completion/gather
order of the parallel tasks: `client.gather` hands back the task results in
some order, which the code then re-sorts by the carried index. Steps:
standardize the paths, determine the reader from `paths[0]`, map one
`_load_image` task per path (with the line-95 argument lists), gather,
sort by index, `da.stack` the data fields, force computation when
`compute` is set, and build the metadata from `results[0]` with the
channel axis shifted by one for the new stacking axis. -/
def reader_function (env : PyEnv) (sched : List LoadResult → List LoadResult)
    (path : PathArg) (compute : Bool) (processes : Bool) :
    Except PyError (List LayerData) := do
  let paths := standardize_paths path
  let p0 ← pyIndex paths 0
  let _ReaderClass ← env.determine_reader p0
  let futures := map_load_tasks env paths
  let gathered := sched futures
  let results := sort_by_index gathered
  let stacked := da_stack (results.map (fun r => r.data))
  let data := if compute then stacked.force_compute else stacked
  let r0 ← pyIndex results 0
  let channel_names := r0.channel_names
  let channel_axis : Option Nat :=
    match r0.channel_axis with
    | some k => some (k + 1)
    | none => none
  return [(data,
    { name := channel_names
      channel_axis := channel_axis
      is_pyramid := false
      visible := false })]

/-- The `partial(reader_function, compute=compute, processes=processes)`
closure returned by `get_reader`: it is determined by the two captured
flags. -/
structure PartialReaderFunction where
  compute : Bool
  processes : Bool
deriving DecidableEq, Repr

/-- Invoking the returned closure on a path argument. -/
def PartialReaderFunction.call (f : PartialReaderFunction) (env : PyEnv)
    (sched : List LoadResult → List LoadResult) (path : PathArg) :
    Except PyError (List LayerData) :=
  reader_function env sched path f.compute f.processes

/-- The `try:` body of `get_reader` (lines 140-148): subscript `paths[0]`,
run format detection on it, and on success return the partial closure. -/
def get_reader_try (env : PyEnv) (paths : List Path)
    (compute : Bool) (processes : Bool) :
    Except PyError (Option PartialReaderFunction) := do
  let p0 ← pyIndex paths 0
  let _ ← env.determine_reader p0
  return some { compute := compute, processes := processes }

/-- `get_reader` (lines 130-152): the try body guarded by
`except exceptions.UnsupportedFileFormatError: return None`. Only that one
exception class is caught; every other exception propagates. -/
def get_reader (env : PyEnv) (path : PathArg)
    (compute : Bool) (processes : Bool) :
    Except PyError (Option PartialReaderFunction) :=
  match get_reader_try env (standardize_paths path) compute processes with
  | Except.error PyError.unsupportedFileFormat => Except.ok none
  | r => r

/-- Calling `get_reader` without an explicit `processes` argument: the
signature at line 131 is `get_reader(path, compute, processes=True)`, so
the default applied is `True`. -/
def get_reader_with_default_processes (env : PyEnv) (path : PathArg)
    (compute : Bool) : Except PyError (Option PartialReaderFunction) :=
  get_reader env path compute true

/-- The per-path data `_load_image` produces for a path: the file's array,
cast to float16 and squeezed. It does not depend on the chunk
configuration. -/
def loaded_data (env : PyEnv) (p : Path) : NDArray :=
  np_squeeze (((env.files p).data).astype Dtype.float16)

/-! ### Helper lemmas about the task list and the sort -/

lemma load_image_data_eq (env : PyEnv) (p : Path) (i c : Nat) :
    (_load_image env p i c).data = loaded_data env p := by
  unfold _load_image loaded_data Reader.dask_data _load_image_reader
  by_cases h : c != 0 <;> simp [h]

lemma load_image_index_eq (env : PyEnv) (p : Path) (i c : Nat) :
    (_load_image env p i c).index = i := by
  unfold _load_image
  rfl

lemma load_image_channel_axis_eq (env : PyEnv) (p : Path) (i c : Nat) :
    (_load_image env p i c).channel_axis =
      (if Dim.Channel ∈ (env.files p).dims then
        some ((env.files p).dims.indexOf Dim.Channel)
      else none) := by
  unfold _load_image Reader.dims _load_image_reader
  by_cases h : c != 0 <;> simp [h]

lemma load_image_channel_names_eq (env : PyEnv) (p : Path) (i c : Nat) :
    (_load_image env p i c).channel_names =
      (if Dim.Channel ∈ (env.files p).dims then
        some ((env.files p).channel_names)
      else none) := by
  unfold _load_image Reader.dims Reader.get_channel_names _load_image_reader
  by_cases h : c != 0 <;>
    by_cases h2 : Dim.Channel ∈ (env.files p).dims <;>
    simp [h, h2]

lemma one_not_mem_squeeze_shape (a : NDArray) : 1 ∉ (np_squeeze a).shape := by
  intro hmem
  simp only [np_squeeze, List.mem_filter] at hmem
  simp at hmem

lemma zip_self_eq_map (l : List Nat) : l.zip l = l.map (fun i => (i, i)) := by
  induction l with
  | nil => rfl
  | cons a l ih => simp [List.zip_cons_cons, ih]

lemma map_load_tasks_eq (env : PyEnv) (paths : List Path) :
    map_load_tasks env paths =
      List.zipWith (fun p i => _load_image env p i i) paths
        (List.range paths.length) := by
  unfold map_load_tasks task_index_args task_compute_args
  rw [zip_self_eq_map, List.zipWith_map_right]

lemma map_load_tasks_getElem (env : PyEnv) (paths : List Path) (i : Nat)
    (p : Path) (hp : paths[i]? = some p) :
    (map_load_tasks env paths)[i]? = some (_load_image env p i i) := by
  have hi : i < paths.length := (List.getElem?_eq_some_iff.mp hp).1
  rw [map_load_tasks_eq, List.getElem?_zipWith, hp, List.getElem?_range hi]

lemma map_load_tasks_length (env : PyEnv) (paths : List Path) :
    (map_load_tasks env paths).length = paths.length := by
  rw [map_load_tasks_eq]
  simp

lemma map_load_tasks_index_map (env : PyEnv) (paths : List Path) :
    (map_load_tasks env paths).map (fun r => r.index) =
      List.range paths.length := by
  apply List.ext_getElem?
  intro i
  rw [List.getElem?_map]
  by_cases hi : i < paths.length
  · have hp : paths[i]? = some paths[i] := List.getElem?_eq_getElem hi
    rw [map_load_tasks_getElem env paths i _ hp, List.getElem?_range hi]
    simp [load_image_index_eq]
  · have h1 : (map_load_tasks env paths)[i]? = none := by
      rw [List.getElem?_eq_none_iff, map_load_tasks_length]
      omega
    have h2 : (List.range paths.length)[i]? = none := by
      rw [List.getElem?_eq_none_iff, List.length_range]
      omega
    rw [h1, h2]
    rfl

lemma map_load_tasks_pairwise (env : PyEnv) (paths : List Path) :
    (map_load_tasks env paths).Pairwise (fun a b => a.index < b.index) := by
  have h := List.pairwise_lt_range paths.length
  rw [← map_load_tasks_index_map env paths] at h
  exact List.pairwise_map.mp h

lemma mem_map_load_tasks (env : PyEnv) (paths : List Path) (r : LoadResult)
    (hr : r ∈ map_load_tasks env paths) :
    ∃ i p, paths[i]? = some p ∧ r = _load_image env p i i := by
  obtain ⟨i, hi, hget⟩ := List.getElem_of_mem hr
  have hlen : i < paths.length := by
    rw [map_load_tasks_length] at hi
    exact hi
  have hp : paths[i]? = some paths[i] := List.getElem?_eq_getElem hlen
  have h1 : (map_load_tasks env paths)[i]? = some (_load_image env paths[i] i i) :=
    map_load_tasks_getElem env paths i _ hp
  have h2 : (map_load_tasks env paths)[i]? = some r := by
    rw [List.getElem?_eq_getElem hi, hget]
  refine ⟨i, paths[i], hp, ?_⟩
  rw [h1] at h2
  exact (Option.some.inj h2).symm

lemma sort_by_index_eq_of_perm (ts l : List LoadResult)
    (hidx : ts.Pairwise (fun a b => a.index < b.index))
    (hperm : l.Perm ts) :
    sort_by_index l = ts := by
  haveI : IsTotal LoadResult (fun a b => a.index ≤ b.index) :=
    ⟨fun a b => Nat.le_total a.index b.index⟩
  haveI : IsTrans LoadResult (fun a b => a.index ≤ b.index) :=
    ⟨fun a b c hab hbc => Nat.le_trans hab hbc⟩
  haveI : IsAntisymm LoadResult (fun a b => a.index < b.index) :=
    ⟨fun a b h1 h2 => absurd h2 (Nat.lt_asymm h1)⟩
  have hsp : (sort_by_index l).Perm ts :=
    (List.perm_insertionSort _ l).trans hperm
  have hsorted_le : (sort_by_index l).Pairwise (fun a b => a.index ≤ b.index) :=
    List.sorted_insertionSort _ l
  have hts_ne : (ts.map (fun r => r.index)).Nodup :=
    List.pairwise_map.mpr (hidx.imp (fun h => Nat.ne_of_lt h))
  have hs_ne : ((sort_by_index l).map (fun r => r.index)).Nodup :=
    ((hsp.map (fun r => r.index)).nodup_iff).mpr hts_ne
  have hne : (sort_by_index l).Pairwise (fun a b => a.index ≠ b.index) :=
    List.pairwise_map.mp hs_ne
  have hsorted_lt : (sort_by_index l).Pairwise (fun a b => a.index < b.index) :=
    (hsorted_le.and hne).imp (fun h => Nat.lt_of_le_of_ne h.1 h.2)
  exact List.eq_of_perm_of_sorted hsp hsorted_lt hidx

lemma except_bind_ok (a : α) (f : α → Except PyError β) :
    (Except.ok a : Except PyError α) >>= f = f a := rfl

lemma except_pure_eq (a : α) : (pure a : Except PyError α) = Except.ok a := rfl

/-- Full evaluation of `reader_function` under the success hypotheses:
the first path exists, format detection succeeds on it, and the gather
order is some permutation of the submitted tasks. -/
lemma reader_function_eval (env : PyEnv)
    (sched : List LoadResult → List LoadResult) (path : PathArg)
    (compute processes : Bool) (p0 : Path)
    (hp0 : (standardize_paths path)[0]? = some p0)
    (hdet : env.determine_reader p0 = Except.ok ())
    (hperm : (sched (map_load_tasks env (standardize_paths path))).Perm
        (map_load_tasks env (standardize_paths path))) :
    reader_function env sched path compute processes =
      Except.ok [({ slices :=
                      (map_load_tasks env (standardize_paths path)).map
                        (fun r => r.data)
                    lazy := !compute },
                  { name := (_load_image env p0 0 0).channel_names
                    channel_axis :=
                      match (_load_image env p0 0 0).channel_axis with
                      | some k => some (k + 1)
                      | none => none
                    is_pyramid := false
                    visible := false })] := by
  have hts : sort_by_index
      (sched (map_load_tasks env (standardize_paths path))) =
      map_load_tasks env (standardize_paths path) :=
    sort_by_index_eq_of_perm _ _ (map_load_tasks_pairwise env _) hperm
  have h0 : (map_load_tasks env (standardize_paths path))[0]? =
      some (_load_image env p0 0 0) :=
    map_load_tasks_getElem env _ 0 p0 hp0
  unfold reader_function
  dsimp only
  rw [show pyIndex (standardize_paths path) 0 = Except.ok p0 by
    simp [pyIndex, hp0]]
  rw [except_bind_ok, hdet, except_bind_ok, hts]
  rw [show pyIndex (map_load_tasks env (standardize_paths path)) 0 =
      Except.ok (_load_image env p0 0 0) by simp [pyIndex, h0]]
  rw [except_bind_ok, except_pure_eq]
  cases compute <;> rfl

lemma get_reader_try_eval (env : PyEnv) (paths : List Path)
    (compute processes : Bool) (p0 : Path) (hp0 : paths[0]? = some p0) :
    get_reader_try env paths compute processes =
      (env.determine_reader p0).bind
        (fun _ => Except.ok (some { compute := compute, processes := processes })) := by
  unfold get_reader_try
  rw [show pyIndex paths 0 = Except.ok p0 by simp [pyIndex, hp0]]
  rw [except_bind_ok]
  cases env.determine_reader p0 with
  | ok u => rfl
  | error e => rfl

lemma get_reader_eval_ok (env : PyEnv) (path : PathArg)
    (compute processes : Bool) (p0 : Path)
    (hp0 : (standardize_paths path)[0]? = some p0)
    (hdet : env.determine_reader p0 = Except.ok ()) :
    get_reader env path compute processes =
      Except.ok (some { compute := compute, processes := processes }) := by
  unfold get_reader
  rw [get_reader_try_eval env _ compute processes p0 hp0, hdet]
  rfl

lemma get_reader_eval_unsupported (env : PyEnv) (path : PathArg)
    (compute processes : Bool) (p0 : Path)
    (hp0 : (standardize_paths path)[0]? = some p0)
    (hdet : env.determine_reader p0 =
      Except.error PyError.unsupportedFileFormat) :
    get_reader env path compute processes = Except.ok none := by
  unfold get_reader
  rw [get_reader_try_eval env _ compute processes p0 hp0, hdet]
  rfl

lemma get_reader_eval_error (env : PyEnv) (path : PathArg)
    (compute processes : Bool) (p0 : Path) (e : PyError)
    (hne : e ≠ PyError.unsupportedFileFormat)
    (hp0 : (standardize_paths path)[0]? = some p0)
    (hdet : env.determine_reader p0 = Except.error e) :
    get_reader env path compute processes = Except.error e := by
  unfold get_reader
  rw [get_reader_try_eval env _ compute processes p0 hp0, hdet]
  cases e with
  | indexError => rfl
  | unsupportedFileFormat => exact absurd rfl hne
  | other msg => rfl

/-! ### Concrete environments used as witnesses and counterexamples -/

/-- A fixture file: a single-scene, single-channel, single-plane image with
dims "CZYX", shape (1, 1, 4, 4), one channel name. -/
def single_plane_file : FileImage :=
  { dims := [Dim.Channel, Dim.SpatialZ, Dim.SpatialY, Dim.SpatialX]
    channel_names := ["ch0"]
    data := { shape := [1, 1, 4, 4], dtype := Dtype.uint16, payload := 7 } }

/-- An environment where format detection succeeds on every path and every
path holds the single-plane fixture. -/
def fixture_env : PyEnv :=
  { determine_reader := fun _ => Except.ok ()
    files := fun _ => single_plane_file }

/-- An environment whose two files have distinct content, equal squeezed
shapes, and a two-channel dim order "TCYX"; used for ordering claims. -/
def two_file_env : PyEnv :=
  { determine_reader := fun _ => Except.ok ()
    files := fun p =>
      if p = "a.tiff" then
        { dims := [Dim.Time, Dim.Channel, Dim.SpatialY, Dim.SpatialX]
          channel_names := ["c0", "c1"]
          data := { shape := [1, 2, 4, 4], dtype := Dtype.uint16, payload := 100 } }
      else
        { dims := [Dim.Time, Dim.Channel, Dim.SpatialY, Dim.SpatialX]
          channel_names := ["c0", "c1"]
          data := { shape := [1, 2, 4, 4], dtype := Dtype.uint16, payload := 200 } } }

/-- An environment where format detection always raises
`UnsupportedFileFormatError`. -/
def unsupported_env : PyEnv :=
  { determine_reader := fun _ => Except.error PyError.unsupportedFileFormat
    files := fun _ => single_plane_file }

/-- An environment where format detection raises `FileNotFoundError`
(the file cannot even be opened to probe its format). -/
def file_not_found_env : PyEnv :=
  { determine_reader := fun _ => Except.error (PyError.other "FileNotFoundError")
    files := fun _ => single_plane_file }

/-- An environment whose files expose no Channel dimension ("ZYX"). -/
def no_channel_env : PyEnv :=
  { determine_reader := fun _ => Except.ok ()
    files := fun _ =>
      { dims := [Dim.SpatialZ, Dim.SpatialY, Dim.SpatialX]
        channel_names := []
        data := { shape := [3, 4, 4], dtype := Dtype.uint16, payload := 9 } } }

/-! ### Claim theorems -/

/-- C1: the claim says every per-path load task receives the caller's
materialize flag (false giving a YX-chunked reader, true an unchunked one).
The code does not do this: line 95's comprehension
`[compute for compute in range(len(paths))]` shadows `compute`, so for a
two-path call the per-task compute arguments are `[0, 1]` no matter what
the caller passed — task 0 (falsy 0) always builds the YX-chunked reader
and task 1 (truthy 1) always builds the reader without chunk
configuration. This theorem evaluates the embedded code at that failing
input. -/
theorem c1_per_task_compute_flag_dropped :
    task_compute_args ["a.tiff", "b.tiff"] = [0, 1] ∧
    (_load_image_reader "a.tiff" 0).chunk_by_dims =
      some [Dim.SpatialY, Dim.SpatialX] ∧
    (_load_image_reader "b.tiff" 1).chunk_by_dims = none :=
  ⟨rfl, rfl, rfl⟩

/-- C2: for every non-empty path list whose first path is supported, and
for every completion/gather order of the parallel tasks (any permutation),
the returned stacked array's leading axis has length N and the data loaded
from the path at position i occupies position i, because the results are
re-sorted on the carried index before stacking. -/
theorem c2_stack_preserves_caller_order (env : PyEnv)
    (sched : List LoadResult → List LoadResult) (paths : List Path)
    (compute processes : Bool) (p0 : Path)
    (hp0 : paths[0]? = some p0)
    (hdet : env.determine_reader p0 = Except.ok ())
    (hperm : (sched (map_load_tasks env paths)).Perm (map_load_tasks env paths))
    (hstackable : ∀ p ∈ paths,
      (loaded_data env p).shape = (loaded_data env p0).shape) :
    ∃ arr meta,
      reader_function env sched (PathArg.multiple paths) compute processes =
        Except.ok [(arr, meta)] ∧
      arr.slices.length = paths.length ∧
      (∀ (i : Nat) (p : Path), paths[i]? = some p →
        arr.slices[i]? = some (loaded_data env p)) := by
  refine ⟨_, _,
    reader_function_eval env sched (PathArg.multiple paths)
      compute processes p0 hp0 hdet hperm, ?_, ?_⟩
  · show ((map_load_tasks env paths).map (fun r => r.data)).length = _
    rw [List.length_map, map_load_tasks_length]
  · intro i p hp
    show ((map_load_tasks env paths).map (fun r => r.data))[i]? = _
    rw [List.getElem?_map, map_load_tasks_getElem env paths i p hp]
    simp [load_image_data_eq]

/-- Witness for C2 at a two-path input with a gather order that reverses
the completion results. -/
theorem c2_witness :
    ∃ arr meta,
      reader_function two_file_env List.reverse
          (PathArg.multiple ["a.tiff", "b.tiff"]) false true =
        Except.ok [(arr, meta)] ∧
      arr.slices.length = (["a.tiff", "b.tiff"] : List Path).length ∧
      (∀ (i : Nat) (p : Path), (["a.tiff", "b.tiff"] : List Path)[i]? = some p →
        arr.slices[i]? = some (loaded_data two_file_env p)) :=
  c2_stack_preserves_caller_order two_file_env List.reverse
    ["a.tiff", "b.tiff"] false true "a.tiff" rfl rfl
    (List.reverse_perm _) (by decide)

/-- C3 counterexample: the claim says any failure raised during format
detection is converted to None and never propagated. But the `except`
clause at line 151 catches only `UnsupportedFileFormatError`; when the
probe raises `FileNotFoundError` (a path that cannot be opened), the
exception propagates out of `get_reader`. -/
theorem c3_counterexample :
    get_reader file_not_found_env (PathArg.single "missing.tiff") true true =
      Except.error (PyError.other "FileNotFoundError") := rfl

/-- C3 amended: an `UnsupportedFileFormatError` raised during format
detection on the first path is converted into None; any other exception
raised by the detection step propagates to the caller unchanged. -/
theorem c3_amended_detection_errors (env : PyEnv) (path : PathArg)
    (compute processes : Bool) (p0 : Path)
    (hp0 : (standardize_paths path)[0]? = some p0) :
    (env.determine_reader p0 = Except.error PyError.unsupportedFileFormat →
      get_reader env path compute processes = Except.ok none) ∧
    (∀ e, e ≠ PyError.unsupportedFileFormat →
      env.determine_reader p0 = Except.error e →
      get_reader env path compute processes = Except.error e) := by
  constructor
  · intro hdet
    exact get_reader_eval_unsupported env path compute processes p0 hp0 hdet
  · intro e hne hdet
    exact get_reader_eval_error env path compute processes p0 e hne hp0 hdet

/-- Witness for C3 amended: an unsupported-format probe yields None, and a
`FileNotFoundError` probe propagates. -/
theorem c3_amended_witness :
    get_reader unsupported_env (PathArg.single "x.bin") false true =
      Except.ok none ∧
    get_reader file_not_found_env (PathArg.single "y.bin") false true =
      Except.error (PyError.other "FileNotFoundError") :=
  ⟨(c3_amended_detection_errors unsupported_env (PathArg.single "x.bin")
      false true "x.bin" rfl).1 rfl,
   (c3_amended_detection_errors file_not_found_env (PathArg.single "y.bin")
      false true "y.bin" rfl).2 _ (by decide) rfl⟩

/-- C4 counterexample: the claim says the returned array has no dimension
of size 1, in particular for a single-path input over a single-plane
single-channel fixture. But `da.stack` inserts a new leading axis of
length N; for a single path the returned array's shape is
`(1, 4, 4)` — it contains a dimension of size 1. -/
theorem c4_counterexample :
    reader_function fixture_env id
        (PathArg.single "s_1_t_1_c_1_z_1.tiff") true false =
      Except.ok [({ slices := [{ shape := [4, 4], dtype := Dtype.float16,
                                 payload := 7 }],
                    lazy := false },
                  { name := some ["ch0"], channel_axis := some 1,
                    is_pyramid := false, visible := false })] ∧
    1 ∈ StackedArray.shape
        { slices := [{ shape := [4, 4], dtype := Dtype.float16,
                       payload := 7 }],
          lazy := false } :=
  ⟨rfl, by decide⟩

/-- C4 amended: for every successful loader invocation, the returned
array's element type is half-precision floating point and every per-path
slice is stripped of all size-1 dimensions; the only dimension that can
have size 1 is the newly inserted leading stacking axis, whose length is
the number of paths. -/
theorem c4_amended_dtype_and_squeeze (env : PyEnv)
    (sched : List LoadResult → List LoadResult) (path : PathArg)
    (compute processes : Bool) (p0 : Path)
    (hp0 : (standardize_paths path)[0]? = some p0)
    (hdet : env.determine_reader p0 = Except.ok ())
    (hperm : (sched (map_load_tasks env (standardize_paths path))).Perm
        (map_load_tasks env (standardize_paths path))) :
    ∃ arr meta,
      reader_function env sched path compute processes =
        Except.ok [(arr, meta)] ∧
      arr.dtypeHead = some Dtype.float16 ∧
      (∀ s ∈ arr.slices, s.dtype = Dtype.float16 ∧ 1 ∉ s.shape) ∧
      arr.shape.head? = some (standardize_paths path).length ∧
      1 ∉ arr.shape.tail := by
  have hhead : (map_load_tasks env (standardize_paths path)).head? =
      some (_load_image env p0 0 0) := by
    rw [List.head?_eq_getElem?]
    exact map_load_tasks_getElem env _ 0 p0 hp0
  have hslice : ∀ s ∈ (map_load_tasks env (standardize_paths path)).map
      (fun r => r.data), s.dtype = Dtype.float16 ∧ 1 ∉ s.shape := by
    intro s hs
    obtain ⟨r, hr, hrs⟩ := List.mem_map.mp hs
    obtain ⟨i, p, hp, hri⟩ := mem_map_load_tasks env _ r hr
    have hdata : s = loaded_data env p := by
      rw [← hrs, hri, load_image_data_eq]
    rw [hdata]
    exact ⟨rfl, one_not_mem_squeeze_shape _⟩
  refine ⟨_, _,
    reader_function_eval env sched path compute processes p0 hp0 hdet hperm,
    ?_, hslice, ?_, ?_⟩
  · show (((map_load_tasks env (standardize_paths path)).map
      (fun r => r.data)).head?).map (fun s => s.dtype) = _
    rw [List.head?_map, hhead]
    rfl
  · simp [StackedArray.shape, map_load_tasks_length]
  · simp only [StackedArray.shape, List.tail_cons, List.head?_map, hhead,
      Option.map_some']
    rw [load_image_data_eq]
    exact one_not_mem_squeeze_shape _

/-- Witness for C4 amended on the single-plane single-channel fixture. -/
theorem c4_amended_witness :
    ∃ arr meta,
      reader_function fixture_env id
          (PathArg.single "s_1_t_1_c_1_z_1.tiff") true false =
        Except.ok [(arr, meta)] ∧
      arr.dtypeHead = some Dtype.float16 ∧
      (∀ s ∈ arr.slices, s.dtype = Dtype.float16 ∧ 1 ∉ s.shape) ∧
      arr.shape.head? = some (standardize_paths
        (PathArg.single "s_1_t_1_c_1_z_1.tiff")).length ∧
      1 ∉ arr.shape.tail :=
  c4_amended_dtype_and_squeeze fixture_env id
    (PathArg.single "s_1_t_1_c_1_z_1.tiff") true false
    "s_1_t_1_c_1_z_1.tiff" rfl rfl (List.Perm.refl _)

/-- C5: for every successful loader invocation, the metadata is derived
from the first sorted per-path result (the first path's reader): if its
dimension ordering contains the Channel dimension at position k, the
metadata's channel axis equals k+1 (shifted for the new stacking axis) and
its name equals that reader's channel-name list; if it exposes no Channel
dimension, both are null. -/
theorem c5_metadata_from_first_result (env : PyEnv)
    (sched : List LoadResult → List LoadResult) (path : PathArg)
    (compute processes : Bool) (p0 : Path)
    (hp0 : (standardize_paths path)[0]? = some p0)
    (hdet : env.determine_reader p0 = Except.ok ())
    (hperm : (sched (map_load_tasks env (standardize_paths path))).Perm
        (map_load_tasks env (standardize_paths path))) :
    ∃ arr meta,
      reader_function env sched path compute processes =
        Except.ok [(arr, meta)] ∧
      (Dim.Channel ∈ (env.files p0).dims →
        meta.channel_axis =
          some ((env.files p0).dims.indexOf Dim.Channel + 1) ∧
        meta.name = some ((env.files p0).channel_names)) ∧
      (Dim.Channel ∉ (env.files p0).dims →
        meta.channel_axis = none ∧ meta.name = none) := by
  refine ⟨_, _,
    reader_function_eval env sched path compute processes p0 hp0 hdet hperm,
    ?_, ?_⟩
  · intro hc
    constructor
    · show (match (_load_image env p0 0 0).channel_axis with
        | some k => some (k + 1)
        | none => none) = _
      rw [load_image_channel_axis_eq]
      simp [hc]
    · show (_load_image env p0 0 0).channel_names = _
      rw [load_image_channel_names_eq]
      simp [hc]
  · intro hc
    constructor
    · show (match (_load_image env p0 0 0).channel_axis with
        | some k => some (k + 1)
        | none => none) = _
      rw [load_image_channel_axis_eq]
      simp [hc]
    · show (_load_image env p0 0 0).channel_names = _
      rw [load_image_channel_names_eq]
      simp [hc]

/-- Witness for C5: a channelled fixture (Channel at position 0, so the
metadata axis is 1) and a channel-free fixture (both fields null). -/
theorem c5_witness :
    (∃ arr meta,
      reader_function fixture_env id (PathArg.single "img.tiff") false true =
        Except.ok [(arr, meta)] ∧
      (Dim.Channel ∈ (fixture_env.files "img.tiff").dims →
        meta.channel_axis =
          some ((fixture_env.files "img.tiff").dims.indexOf Dim.Channel + 1) ∧
        meta.name = some ((fixture_env.files "img.tiff").channel_names)) ∧
      (Dim.Channel ∉ (fixture_env.files "img.tiff").dims →
        meta.channel_axis = none ∧ meta.name = none)) ∧
    (∃ arr meta,
      reader_function no_channel_env id (PathArg.single "vol.tiff") false true =
        Except.ok [(arr, meta)] ∧
      (Dim.Channel ∈ (no_channel_env.files "vol.tiff").dims →
        meta.channel_axis =
          some ((no_channel_env.files "vol.tiff").dims.indexOf Dim.Channel + 1) ∧
        meta.name = some ((no_channel_env.files "vol.tiff").channel_names)) ∧
      (Dim.Channel ∉ (no_channel_env.files "vol.tiff").dims →
        meta.channel_axis = none ∧ meta.name = none)) :=
  ⟨c5_metadata_from_first_result fixture_env id (PathArg.single "img.tiff")
      false true "img.tiff" rfl rfl (List.Perm.refl _),
   c5_metadata_from_first_result no_channel_env id (PathArg.single "vol.tiff")
      false true "vol.tiff" rfl rfl (List.Perm.refl _)⟩

/-- C6: the capability probe returns None exactly when no registered
reader recognizes the first path (the detection raises
`UnsupportedFileFormatError`), and returns the partial loader carrying the
caller-chosen compute and processes flags when the first path is
recognized. -/
theorem c6_probe_loader_or_none (env : PyEnv) (path : PathArg)
    (compute processes : Bool) (p0 : Path)
    (hp0 : (standardize_paths path)[0]? = some p0) :
    (env.determine_reader p0 = Except.error PyError.unsupportedFileFormat →
      get_reader env path compute processes = Except.ok none) ∧
    (env.determine_reader p0 = Except.ok () →
      get_reader env path compute processes =
        Except.ok (some { compute := compute, processes := processes })) := by
  constructor
  · intro hdet
    exact get_reader_eval_unsupported env path compute processes p0 hp0 hdet
  · intro hdet
    exact get_reader_eval_ok env path compute processes p0 hp0 hdet

/-- Witness for C6: an unrecognized path yields None; a recognized path
yields the loader closure with the chosen flags. -/
theorem c6_witness :
    get_reader unsupported_env (PathArg.single "weird.bin") true false =
      Except.ok none ∧
    get_reader fixture_env (PathArg.single "img.tiff") true false =
      Except.ok (some { compute := true, processes := false }) :=
  ⟨(c6_probe_loader_or_none unsupported_env (PathArg.single "weird.bin")
      true false "weird.bin" rfl).1 rfl,
   (c6_probe_loader_or_none fixture_env (PathArg.single "img.tiff")
      true false "img.tiff" rfl).2 rfl⟩

/-- C7: with materialize (compute) true the stacked result is forced
(non-lazy) before being returned; with compute false the returned array is
still a lazy dask array. -/
theorem c7_compute_forces_materialization (env : PyEnv)
    (sched : List LoadResult → List LoadResult) (path : PathArg)
    (processes : Bool) (p0 : Path)
    (hp0 : (standardize_paths path)[0]? = some p0)
    (hdet : env.determine_reader p0 = Except.ok ())
    (hperm : (sched (map_load_tasks env (standardize_paths path))).Perm
        (map_load_tasks env (standardize_paths path))) :
    (∃ arr meta,
      reader_function env sched path true processes =
        Except.ok [(arr, meta)] ∧ arr.lazy = false) ∧
    (∃ arr meta,
      reader_function env sched path false processes =
        Except.ok [(arr, meta)] ∧ arr.lazy = true) :=
  ⟨⟨_, _, reader_function_eval env sched path true processes p0
        hp0 hdet hperm, rfl⟩,
   ⟨_, _, reader_function_eval env sched path false processes p0
        hp0 hdet hperm, rfl⟩⟩

/-- Witness for C7 on the fixture environment. -/
theorem c7_witness :
    (∃ arr meta,
      reader_function fixture_env id (PathArg.single "img.tiff") true false =
        Except.ok [(arr, meta)] ∧ arr.lazy = false) ∧
    (∃ arr meta,
      reader_function fixture_env id (PathArg.single "img.tiff") false false =
        Except.ok [(arr, meta)] ∧ arr.lazy = true) :=
  c7_compute_forces_materialization fixture_env id
    (PathArg.single "img.tiff") false "img.tiff" rfl rfl (List.Perm.refl _)

/-- C8: every successful loader invocation returns a single-element list
holding exactly one (array, metadata) pair, and the metadata carries
exactly the fixed keys of the `Meta` structure — name, channel axis,
a pyramid flag that is always false, and a visibility flag that is always
false. -/
theorem c8_single_pair_fixed_keys (env : PyEnv)
    (sched : List LoadResult → List LoadResult) (path : PathArg)
    (compute processes : Bool) (p0 : Path)
    (hp0 : (standardize_paths path)[0]? = some p0)
    (hdet : env.determine_reader p0 = Except.ok ())
    (hperm : (sched (map_load_tasks env (standardize_paths path))).Perm
        (map_load_tasks env (standardize_paths path))) :
    ∃ res, reader_function env sched path compute processes =
        Except.ok res ∧
      res.length = 1 ∧
      ∀ lm ∈ res, lm.2.is_pyramid = false ∧ lm.2.visible = false := by
  refine ⟨_,
    reader_function_eval env sched path compute processes p0 hp0 hdet hperm,
    rfl, ?_⟩
  intro lm hlm
  rw [List.mem_singleton.mp hlm]
  exact ⟨rfl, rfl⟩

/-- Witness for C8 on the fixture environment. -/
theorem c8_witness :
    ∃ res, reader_function fixture_env id (PathArg.single "img.tiff")
        true true = Except.ok res ∧
      res.length = 1 ∧
      ∀ lm ∈ res, lm.2.is_pyramid = false ∧ lm.2.visible = false :=
  c8_single_pair_fixed_keys fixture_env id (PathArg.single "img.tiff")
    true true "img.tiff" rfl rfl (List.Perm.refl _)

/-- C9: calling `get_reader` without an explicit multiprocessing argument
applies the signature default `processes=True`, so the returned loader is
configured with multiprocessing enabled. -/
theorem c9_default_processes_true (env : PyEnv) (path : PathArg)
    (compute : Bool) (p0 : Path)
    (hp0 : (standardize_paths path)[0]? = some p0)
    (hdet : env.determine_reader p0 = Except.ok ()) :
    ∃ loader,
      get_reader_with_default_processes env path compute =
        Except.ok (some loader) ∧
      loader.processes = true :=
  ⟨_, get_reader_eval_ok env path compute true p0 hp0 hdet, rfl⟩

/-- Witness for C9 on the fixture environment. -/
theorem c9_witness :
    ∃ loader,
      get_reader_with_default_processes fixture_env
          (PathArg.single "img.tiff") false =
        Except.ok (some loader) ∧
      loader.processes = true :=
  c9_default_processes_true fixture_env (PathArg.single "img.tiff")
    false "img.tiff" rfl rfl

/-- C10: for an empty list of paths, both `get_reader` and
`reader_function` unconditionally subscript `paths[0]` and therefore fail
with an `IndexError` instead of returning the absence signal or an empty
result — under every environment, gather order, and flag combination. -/
theorem c10_empty_path_list_raises (env : PyEnv)
    (sched : List LoadResult → List LoadResult) (compute processes : Bool) :
    get_reader env (PathArg.multiple []) compute processes =
      Except.error PyError.indexError ∧
    reader_function env sched (PathArg.multiple []) compute processes =
      Except.error PyError.indexError :=
  ⟨rfl, rfl⟩

end NapariAics
